import Mathlib

/-!
Shallow embedding of `src/hotspot/os/windows/attachListener_windows.cpp`
(Win32 attach listener): the fixed pool of preallocated request slots, the
FIFO pending queue, the counting semaphore, `Win32AttachListener::enqueue`,
`Win32AttachListener::dequeue` and `Win32AttachOperation::complete`.

C strings (NUL-terminated `char` arrays) are modelled as `List Char`;
`strncpy` into a bounded buffer becomes `List.take`. The mutex is held
across every pool/queue mutation in the source — in `dequeue` it is held
from just after the semaphore wait until the popped slot has been pushed
back on the available list — so one state transition models one complete
critical section.
-/

namespace AttachWin

/-- A C string: the character content up to the NUL terminator. -/
abbrev CStr := List Char

/-- The `AttachAPIVersion` enumerator `ATTACH_API_V1 = 1`. -/
def ATTACH_API_V1 : Nat := 1

/-- The `AttachAPIVersion` enumerator `ATTACH_API_V2 = 2`. -/
def ATTACH_API_V2 : Nat := 2

/-- Modelled from the spec: `AttachOperation::name_length_max` (declared in
`services/attachListener.hpp`, which is not among the given sources); the
spec only requires a fixed maximum command-name length, the concrete value
is the JDK's. -/
def name_length_max : Nat := 16

/-- Modelled from the spec: `AttachOperation::arg_length_max` (declared in
`services/attachListener.hpp`, not among the given sources); the spec only
requires a fixed maximum per-argument length. -/
def arg_length_max : Nat := 1024

/-- Modelled from the spec: `AttachOperation::arg_count_max` — the spec
fixes the argument count at 3. -/
def arg_count_max : Nat := 3

/-- The bound `Win32AttachOperation::pipe_name_max = 256` (from the source). -/
def pipe_name_max : Nat := 256

/-- The pool capacity `max_enqueued_operations = 4` (from the source). -/
def max_enqueued_operations : Nat := 4

/-- The pipe name-space `\\.\pipe\` demanded by the check
`strstr(pipename, "\\\\.\\pipe\\") != pipename` (nine characters). -/
def pipeNamespace : CStr := ( "\\\\.\\pipe\\" ).data

/-- Error code `ATTACH_ERROR_DISABLED = 100`. -/
def ATTACH_ERROR_DISABLED : Nat := 100

/-- Error code `ATTACH_ERROR_RESOURCE = 101`. -/
def ATTACH_ERROR_RESOURCE : Nat := 101

/-- Error code `ATTACH_ERROR_ILLEGALARG = 102`. -/
def ATTACH_ERROR_ILLEGALARG : Nat := 102

/-- Error code `ATTACH_ERROR_INTERNAL = 103`. -/
def ATTACH_ERROR_INTERNAL : Nat := 103

/-- The helper `Win32AttachOperationRequest::set_value(dst, str, dst_size)`:
`strncpy(dst, str, dst_size - 1)` followed by `dst[dst_size - 1] = 0`
stores, as a C string, the first `dst_size - 1` characters of `str`; a null
`str` stores the empty string. -/
def set_value (str : Option CStr) (dst_size : Nat) : CStr :=
  match str with
  | some s => s.take (dst_size - 1)
  | none => []

/-- One preallocated slot, `Win32AttachOperationRequest`. `id` identifies
the preallocated object (its address in the C code); `set` never changes
it. The buffer sizes are `name_length_max + 1`, `arg_length_max + 1` and
`pipe_name_max + 1` — one byte above each bound for the NUL terminator. -/
structure Win32AttachOperationRequest where
  id : Nat
  ver : Nat
  name : CStr
  arg0 : CStr
  arg1 : CStr
  arg2 : CStr
  pipe : CStr
deriving Repr, DecidableEq

namespace Win32AttachOperationRequest

/-- The setter `Win32AttachOperationRequest::set(ver, pipename, cmd, arg0, arg1, arg2)`:
each field goes through `set_value` with its buffer size. -/
def set (r : Win32AttachOperationRequest) (ver : Nat) (pipename : CStr)
    (cmd arg0 arg1 arg2 : Option CStr) : Win32AttachOperationRequest :=
  { id := r.id
    ver := ver
    name := set_value cmd (name_length_max + 1)
    arg0 := set_value arg0 (arg_length_max + 1)
    arg1 := set_value arg1 (arg_length_max + 1)
    arg2 := set_value arg2 (arg_length_max + 1)
    pipe := set_value (some pipename) (pipe_name_max + 1) }

/-- The accessor `Win32AttachOperationRequest::arg(i)`: the i-th stored argument for
`0 ≤ i < arg_count_max`, null otherwise. -/
def arg (r : Win32AttachOperationRequest) (i : Nat) : Option CStr :=
  if i = 0 then some r.arg0
  else if i = 1 then some r.arg1
  else if i = 2 then some r.arg2
  else none

/-- The no-arg constructor: `set(ATTACH_API_V1, "<nopipe>")` with null
command and arguments (the slot is preallocated with placeholder content). -/
def mkInit (id : Nat) : Win32AttachOperationRequest :=
  set { id := id, ver := 0, name := [], arg0 := [], arg1 := [], arg2 := [],
        pipe := [] } ATTACH_API_V1 (( "<nopipe>" ).data) none none none none

/-- The request content apart from the slot identity: what `set` stores and
what the dequeue side reads back. -/
def data (r : Win32AttachOperationRequest) : Nat × CStr × CStr × CStr × CStr × CStr :=
  (r.ver, r.name, r.arg0, r.arg1, r.arg2, r.pipe)

end Win32AttachOperationRequest

/-- The shared listener state: `_avail` (LIFO free list, head first), the
pending queue `_head .. _tail` as a list (head first), and the counting
semaphore's current count. -/
structure ListenerState where
  avail : List Win32AttachOperationRequest
  queue : List Win32AttachOperationRequest
  sem : Nat
deriving Repr, DecidableEq

/-- Initialization, `Win32AttachListener::init()`: preallocates `max_enqueued_operations`
slots onto the available list (each pushed at the head), empty queue,
semaphore created with count 0 and maximum count `max_enqueued_operations`.
Slot ids record allocation order 0,1,2,3. -/
def initState : ListenerState :=
  { avail := [Win32AttachOperationRequest.mkInit 3, Win32AttachOperationRequest.mkInit 2,
              Win32AttachOperationRequest.mkInit 1, Win32AttachOperationRequest.mkInit 0]
    queue := []
    sem := 0 }

/-- The arguments of one `enqueue` call. -/
structure EnqArgs where
  ver : Nat
  cmd : CStr
  arg0 : CStr
  arg1 : CStr
  arg2 : CStr
  pipename : CStr
deriving Repr, DecidableEq

/-- The parameter validation of `Win32AttachListener::enqueue` (lines
327-334): every length check is a strict `>` against its bound, and
`strstr(pipename, "\\\\.\\pipe\\") == pipename` demands the pipe name-space
at position 0. -/
def validArgs (a : EnqArgs) : Prop :=
  a.cmd.length ≤ name_length_max ∧
  a.arg0.length ≤ arg_length_max ∧
  a.arg1.length ≤ arg_length_max ∧
  a.arg2.length ≤ arg_length_max ∧
  a.pipename.length ≤ pipe_name_max ∧
  pipeNamespace.isPrefixOf a.pipename = true

instance (a : EnqArgs) : Decidable (validArgs a) := by
  unfold validArgs; infer_instance

/-- The slot stored by a successful `enqueue` that popped slot `op`:
`op->set(ver, pipename, cmd, arg0, arg1, arg2)`. -/
def storedSlot (op : Win32AttachOperationRequest) (a : EnqArgs) :
    Win32AttachOperationRequest :=
  op.set a.ver a.pipename (some a.cmd) (some a.arg0) (some a.arg1) (some a.arg2)

/-- The body of `Win32AttachListener::enqueue` after the readiness wait: validation,
then under the mutex pop a slot from the available list, append it to the
queue tail, `set` its fields, signal the semaphore once; returns the error
code and the new state. Mutex acquisition is modelled as succeeding (its
failure path returns `ATTACH_ERROR_INTERNAL` without touching state). -/
def enqueue (s : ListenerState) (a : EnqArgs) : Nat × ListenerState :=
  if a.cmd.length > name_length_max then (ATTACH_ERROR_ILLEGALARG, s)
  else if a.arg0.length > arg_length_max then (ATTACH_ERROR_ILLEGALARG, s)
  else if a.arg1.length > arg_length_max then (ATTACH_ERROR_ILLEGALARG, s)
  else if a.arg2.length > arg_length_max then (ATTACH_ERROR_ILLEGALARG, s)
  else if a.pipename.length > pipe_name_max then (ATTACH_ERROR_ILLEGALARG, s)
  else if ¬ (pipeNamespace.isPrefixOf a.pipename = true) then (ATTACH_ERROR_ILLEGALARG, s)
  else
    match s.avail with
    | [] => (ATTACH_ERROR_RESOURCE, s)
    | op :: rest =>
        (0, { avail := rest, queue := s.queue ++ [storedSlot op a], sem := s.sem + 1 })

/-- Folding a list of `enqueue` calls, collecting the return codes. -/
def enqueueAll (s : ListenerState) : List EnqArgs → List Nat × ListenerState
  | [] => ([], s)
  | a :: rest =>
      ((enqueue s a).1 :: (enqueueAll (enqueue s a).2 rest).1,
       (enqueueAll (enqueue s a).2 rest).2)

/-- The readiness-wait loop at the top of `enqueue` (lines 317-324):
`while (!is_initialized()) { Sleep(1000); sleep_count++; if (sleep_count > 10) return DISABLED; }`.
`ready k` tells whether `AttachListener::is_initialized()` holds at the
check made when `sleep_count = k`; the result is (proceeded past the
readiness check?, total number of `Sleep(1000)` calls performed). -/
def readinessWait (ready : Nat → Bool) (sleep_count : Nat) : Bool × Nat :=
  if ready sleep_count then (true, sleep_count)
  else if sleep_count + 1 > 10 then (false, sleep_count + 1)
  else readinessWait ready (sleep_count + 1)
termination_by 11 - sleep_count

/-- An operation, `Win32AttachOperation`: name and arguments resolved for the execution
layer, bound to the pipe it opened. -/
structure Win32AttachOperation where
  name : CStr
  args : List CStr
  pipe : CStr
deriving Repr, DecidableEq

/-- The environment the dequeue loop interacts with: whether
`open_pipe(pipe, write_only)` succeeds for a given pipe name, and what
`read_request` (the shared V2 request reader, external to this source
file) yields on a given pipe — `none` on read failure, otherwise the
decoded command name and arguments. -/
structure ChannelEnv where
  openOk : CStr → Bool → Bool
  readReq : CStr → Option (CStr × List CStr)

/-- The version dispatch of one `dequeue` iteration on a popped request
(lines 395-420): V1 builds the operation from the slot's stored fields
(`set_name`, then `append_arg(request->arg(i))` for `i < arg_count_max`)
and opens the pipe write-only, discarding on open failure; V2 opens the
pipe read-write and reads the request from it, discarding on open or read
failure; any other version tag is discarded with a log message. -/
def dispatch (env : ChannelEnv) (r : Win32AttachOperationRequest) :
    Option Win32AttachOperation :=
  if r.ver = ATTACH_API_V1 then
    if env.openOk r.pipe true then
      some { name := r.name, args := [r.arg0, r.arg1, r.arg2], pipe := r.pipe }
    else none
  else if r.ver = ATTACH_API_V2 then
    if env.openOk r.pipe false then
      match env.readReq r.pipe with
      | some nmargs => some { name := nmargs.1, args := nmargs.2, pipe := r.pipe }
      | none => none
    else none
  else none

/-- One iteration of the `dequeue` loop body after the semaphore wait has
consumed one count (lines 381-426): pop the queue head, dispatch, push the
popped slot back onto the available list, release the mutex. Returns `none`
when the queue head is null: the source then dereferences the null
`request` pointer at `request->set_next(...)` (line 423), which sits
outside the `if (request != nullptr)` block — undefined behavior.
Otherwise returns the produced operation (if any), the popped request and
the new state. -/
def dequeueIter (env : ChannelEnv) (s : ListenerState) :
    Option (Option Win32AttachOperation × Win32AttachOperationRequest × ListenerState) :=
  match s.queue with
  | [] => none
  | r :: rest =>
      some (dispatch env r, r,
            { avail := r :: s.avail, queue := rest, sem := s.sem - 1 })

/-- The loop of `Win32AttachListener::dequeue` (the `for(;;)` loop): each pass blocks
on the semaphore, then runs one iteration; if no operation was produced it
loops. A state with `sem = 0` means the call is (still) blocked in
`WaitForSingleObject` — modelled as result `none` with the state as it
stands. Returns `none` (outer `Option`) on the null-head dereference,
otherwise the produced operation (or `none` while blocked) and the state
left behind. -/
def dequeueLoop (env : ChannelEnv) (s : ListenerState) :
    Option (Option Win32AttachOperation × ListenerState) :=
  if s.sem = 0 then some (none, s)
  else
    match s.queue with
    | [] => none
    | r :: rest =>
        match dispatch env r with
        | some op => some (some op, { avail := r :: s.avail, queue := rest, sem := s.sem - 1 })
        | none => dequeueLoop env { avail := r :: s.avail, queue := rest, sem := s.sem - 1 }
termination_by s.sem
decreasing_by omega

/-- A channel-side event of the reply path. -/
inductive ChanEvent where
  | writeCode (code : Int)
  | writeText (text : CStr)
  | flush
  | close
deriving Repr, DecidableEq

/-- Modelled from the spec: `AttachOperation::write_reply(writer, result, st)`
(declared in `services/attachListener.hpp`, not among the given sources):
on a healthy channel it writes the numeric result code, then the output
text, then flushes; a write failure is logged and swallowed — no retry,
nothing further written. -/
def write_reply (writeOk : Bool) (result : Int) (output : CStr) : List ChanEvent :=
  if writeOk then [ChanEvent.writeCode result, ChanEvent.writeText output, ChanEvent.flush]
  else []

/-- The reply path `Win32AttachOperation::complete(result, result_stream)` (lines 435-442):
`write_reply(&_pipe, result, result_stream); delete this;` — `delete`
runs `~PipeChannel`, which calls `close()`; `close()` closes the handle
and resets it to `INVALID_HANDLE_VALUE`, so the close happens exactly once.
Returns the channel event trace and whether the operation was destroyed. -/
def complete (writeOk : Bool) (result : Int) (output : CStr) :
    List ChanEvent × Bool :=
  (write_reply writeOk result output ++ [ChanEvent.close], true)

/-- The concurrent transition system over the shared listener state: a step
is either one `enqueue` call (any arguments; an invalid or pool-exhausted
call leaves the state unchanged but is still a step) or the critical
section of one `dequeue` iteration, which requires a semaphore count to
consume. The mutex serializes the critical sections, so every interleaving
is a sequence of these steps. The dequeue step's state change does not
depend on the channel environment, only on which slot is popped. -/
inductive Step : ListenerState → ListenerState → Prop
  | enq (s : ListenerState) (a : EnqArgs) : Step s (enqueue s a).2
  | deq (s : ListenerState) (r : Win32AttachOperationRequest)
        (rest : List Win32AttachOperationRequest) :
      0 < s.sem → s.queue = r :: rest →
      Step s { avail := r :: s.avail, queue := rest, sem := s.sem - 1 }

/-- States reachable from the initialized listener by any interleaving of
enqueue and dequeue steps. -/
inductive Reachable : ListenerState → Prop
  | init : Reachable initState
  | step {s s' : ListenerState} : Reachable s → Step s s' → Reachable s'

/-- Performing `k` consecutive `dequeue` iterations, collecting the popped requests in
the order they were popped from the queue head (stopping early if an
iteration would find a null head). -/
def iterPops (env : ChannelEnv) : ListenerState → Nat →
    List Win32AttachOperationRequest × ListenerState
  | s, 0 => ([], s)
  | s, k + 1 =>
      match dequeueIter env s with
      | none => ([], s)
      | some x => (x.2.1 :: (iterPops env x.2.2 k).1, (iterPops env x.2.2 k).2)

/-- The identities of the slots currently held by the free pool and the
pending queue. -/
def slotIds (s : ListenerState) : List Nat :=
  (s.avail ++ s.queue).map Win32AttachOperationRequest.id

/-- A well-formed pipe name: the required name-space followed by a short
suffix. -/
def validPipe : CStr := pipeNamespace ++ ( "p" ).data

/-- A channel environment in which every pipe open and every V2 read
succeeds (the V2 reader yields an empty command with no arguments). -/
def trivialEnv : ChannelEnv :=
  { openOk := fun _ _ => true, readReq := fun _ => some ([], []) }

/-- A channel environment in which every pipe open fails. -/
def closedEnv : ChannelEnv :=
  { openOk := fun _ _ => false, readReq := fun _ => none }

/-- A sample V1 enqueue call within all bounds. -/
def sampleA : EnqArgs :=
  { ver := ATTACH_API_V1, cmd := ( "threaddump" ).data, arg0 := [], arg1 := [],
    arg2 := [], pipename := validPipe }

/-- A sample V2 enqueue call within all bounds. -/
def sampleB : EnqArgs :=
  { ver := ATTACH_API_V2, cmd := [], arg0 := [], arg1 := [], arg2 := [],
    pipename := validPipe }

/-- An enqueue call whose command exceeds `name_length_max` by one. -/
def longCmdArgs : EnqArgs :=
  { ver := ATTACH_API_V1, cmd := List.replicate (name_length_max + 1) 'c',
    arg0 := [], arg1 := [], arg2 := [], pipename := validPipe }

/-- An enqueue call in which every text input has length exactly equal to
its bound. -/
def boundaryArgs : EnqArgs :=
  { ver := ATTACH_API_V1, cmd := List.replicate name_length_max 'c',
    arg0 := List.replicate arg_length_max 'a',
    arg1 := List.replicate arg_length_max 'b',
    arg2 := List.replicate arg_length_max 'd',
    pipename := pipeNamespace ++ List.replicate (pipe_name_max - pipeNamespace.length) 'p' }

/-- The V1 round-trip input from the spec: command `"C"`, arguments
`["a", "", ""]`. -/
def v1Args : EnqArgs :=
  { ver := ATTACH_API_V1, cmd := ( "C" ).data, arg0 := ( "a" ).data, arg1 := [],
    arg2 := [], pipename := validPipe }

/-- The state invariant: the semaphore count mirrors the queue length, and
the pool and queue together hold exactly the four preallocated slots. -/
def Inv (s : ListenerState) : Prop :=
  s.sem = s.queue.length ∧ (slotIds s).Perm (List.range max_enqueued_operations)

lemma storedSlot_id (op : Win32AttachOperationRequest) (a : EnqArgs) :
    (storedSlot op a).id = op.id := rfl

lemma inv_init : Inv initState := by
  constructor
  · rfl
  · decide

lemma enqueue_invalid (s : ListenerState) (a : EnqArgs) (h : ¬ validArgs a) :
    enqueue s a = (ATTACH_ERROR_ILLEGALARG, s) := by
  unfold enqueue
  by_cases h1 : a.cmd.length > name_length_max
  · rw [if_pos h1]
  · rw [if_neg h1]
    by_cases h2 : a.arg0.length > arg_length_max
    · rw [if_pos h2]
    · rw [if_neg h2]
      by_cases h3 : a.arg1.length > arg_length_max
      · rw [if_pos h3]
      · rw [if_neg h3]
        by_cases h4 : a.arg2.length > arg_length_max
        · rw [if_pos h4]
        · rw [if_neg h4]
          by_cases h5 : a.pipename.length > pipe_name_max
          · rw [if_pos h5]
          · rw [if_neg h5]
            by_cases h6 : pipeNamespace.isPrefixOf a.pipename = true
            · exact absurd ⟨Nat.le_of_not_lt h1, Nat.le_of_not_lt h2,
                Nat.le_of_not_lt h3, Nat.le_of_not_lt h4,
                Nat.le_of_not_lt h5, h6⟩ h
            · rw [if_pos h6]

lemma enqueue_valid (s : ListenerState) (a : EnqArgs) (h : validArgs a) :
    enqueue s a =
      match s.avail with
      | [] => (ATTACH_ERROR_RESOURCE, s)
      | op :: rest =>
          (0, { avail := rest, queue := s.queue ++ [storedSlot op a], sem := s.sem + 1 }) := by
  obtain ⟨h1, h2, h3, h4, h5, h6⟩ := h
  unfold enqueue
  rw [if_neg (Nat.not_lt.mpr h1), if_neg (Nat.not_lt.mpr h2), if_neg (Nat.not_lt.mpr h3),
      if_neg (Nat.not_lt.mpr h4), if_neg (Nat.not_lt.mpr h5), if_neg (not_not_intro h6)]

lemma inv_enqueue (s : ListenerState) (a : EnqArgs) (h : Inv s) :
    Inv (enqueue s a).2 := by
  obtain ⟨hsem, hperm⟩ := h
  by_cases hv : validArgs a
  · rw [enqueue_valid s a hv]
    cases havail : s.avail with
    | nil => exact ⟨hsem, hperm⟩
    | cons op rest =>
        constructor
        · simp [hsem]
        · unfold slotIds at hperm ⊢
          rw [havail] at hperm
          refine List.Perm.trans ?_ hperm
          simp only [List.map_append, List.map_cons, List.map_nil, List.cons_append,
            storedSlot_id]
          rw [← List.append_assoc]
          exact List.perm_append_singleton _ _
  · rw [enqueue_invalid s a hv]
    exact ⟨hsem, hperm⟩

lemma inv_deq (s : ListenerState) (r : Win32AttachOperationRequest)
    (rest : List Win32AttachOperationRequest)
    (hq : s.queue = r :: rest) (h : Inv s) :
    Inv { avail := r :: s.avail, queue := rest, sem := s.sem - 1 } := by
  obtain ⟨h1, h2⟩ := h
  constructor
  · rw [hq] at h1
    simp only [List.length_cons] at h1
    simp only [h1]
    omega
  · unfold slotIds at h2 ⊢
    rw [hq] at h2
    refine List.Perm.trans ?_ h2
    simp only [List.map_append, List.map_cons, List.cons_append]
    exact (List.perm_middle).symm

lemma inv_reachable {s : ListenerState} (h : Reachable s) : Inv s := by
  induction h with
  | init => exact inv_init
  | step hr hs ih =>
      cases hs with
      | enq a => exact inv_enqueue _ a ih
      | deq r rest h1 h2 => exact inv_deq _ r rest h2 ih

lemma iterPops_pops (env : ChannelEnv) (k : Nat) :
    ∀ s : ListenerState, (iterPops env s k).1 = s.queue.take k := by
  induction k with
  | zero => intro s; simp [iterPops]
  | succ m ih =>
      intro s
      cases hq : s.queue with
      | nil => simp [iterPops, dequeueIter, hq]
      | cons r rest => simp [iterPops, dequeueIter, hq, ih]

lemma enqueueAll_valid (reqs : List EnqArgs) :
    ∀ s : ListenerState, (∀ a ∈ reqs, validArgs a) → reqs.length ≤ s.avail.length →
    enqueueAll s reqs =
      (List.replicate reqs.length 0,
       { avail := s.avail.drop reqs.length,
         queue := s.queue ++ List.zipWith storedSlot (s.avail.take reqs.length) reqs,
         sem := s.sem + reqs.length }) := by
  induction reqs with
  | nil => intro s hv hlen; simp [enqueueAll]
  | cons a rest ih =>
      intro s hv hlen
      cases havail : s.avail with
      | nil => rw [havail] at hlen; simp at hlen
      | cons op availRest =>
          have hva : validArgs a := hv a (List.mem_cons_self a rest)
          have hstep : enqueue s a =
              (0, { avail := availRest, queue := s.queue ++ [storedSlot op a],
                    sem := s.sem + 1 }) := by
            rw [enqueue_valid s a hva, havail]
          unfold enqueueAll
          rw [hstep]
          rw [ih { avail := availRest, queue := s.queue ++ [storedSlot op a], sem := s.sem + 1 }
              (fun b hb => hv b (List.mem_cons_of_mem a hb))
              (by rw [havail] at hlen; simpa using Nat.le_of_succ_le_succ hlen)]
          simp [List.replicate_succ, List.append_assoc, Nat.add_comm, Nat.add_assoc,
            Nat.add_left_comm]

lemma readinessWait_never (ready : Nat → Bool) :
    ∀ n c, c + n = 11 → c ≤ 10 → (∀ k, c ≤ k → k ≤ 10 → ready k = false) →
      readinessWait ready c = (false, 11) := by
  intro n
  induction n with
  | zero => intro c hc hc10 h; omega
  | succ m ih =>
      intro c hc hc10 h
      rw [readinessWait]
      rw [h c (le_refl c) hc10]
      simp only [Bool.false_eq_true, if_false]
      by_cases hcl : c + 1 > 10
      · rw [if_pos hcl]
        have hc10' : c = 10 := by omega
        rw [hc10']
      · rw [if_neg hcl]
        exact ih (c + 1) (by omega) (by omega) (fun k hk1 hk2 => h k (by omega) hk2)

lemma readinessWait_found (ready : Nat → Bool) :
    ∀ n c k, c + n = 11 → c ≤ k → k ≤ 10 → ready k = true →
      (∀ j, c ≤ j → j < k → ready j = false) →
      readinessWait ready c = (true, k) := by
  intro n
  induction n with
  | zero => intro c k hc hck hk; omega
  | succ m ih =>
      intro c k hc hck hk hr h
      rw [readinessWait]
      by_cases hc0 : c = k
      · subst hc0; rw [hr]; simp
      · rw [h c (le_refl c) (by omega)]
        simp only [Bool.false_eq_true, if_false]
        rw [if_neg (by omega : ¬ c + 1 > 10)]
        exact ih (c + 1) k (by omega) (by omega) hk hr (fun j hj1 hj2 => h j (by omega) hj2)

lemma dequeueLoop_blocked_of_none (env : ChannelEnv) :
    ∀ (n : Nat) (s : ListenerState), s.sem ≤ n →
      ∀ res s', dequeueLoop env s = some (res, s') → res = none → s'.sem = 0 := by
  intro n
  induction n with
  | zero =>
      intro s hs res s' heq hres
      have hz : s.sem = 0 := Nat.le_zero.mp hs
      rw [dequeueLoop, if_pos hz] at heq
      injection heq with h
      injection h with h1 h2
      subst h2
      exact hz
  | succ m ih =>
      intro s hs res s' heq hres
      by_cases hz : s.sem = 0
      · rw [dequeueLoop, if_pos hz] at heq
        injection heq with h
        injection h with h1 h2
        subst h2
        exact hz
      · rw [dequeueLoop, if_neg hz] at heq
        cases hq : s.queue with
        | nil => rw [hq] at heq; simp at heq
        | cons r rest =>
            rw [hq] at heq
            cases hd : dispatch env r with
            | some op =>
                simp only [hd] at heq
                injection heq with h
                injection h with h1 h2
                subst hres
                exact absurd h1.symm (by simp)
            | none =>
                simp only [hd] at heq
                exact ih { avail := r :: s.avail, queue := rest, sem := s.sem - 1 }
                  (by simp only [ListenerState.sem] at hs ⊢; omega) res s' heq hres

/-- C4: whenever the command exceeds `name_length_max`, or any argument
exceeds `arg_length_max`, or the pipe name exceeds `pipe_name_max`, or the
pipe name does not begin with `\\.\pipe\`, `enqueue` (past the readiness
check) returns `ATTACH_ERROR_ILLEGALARG` (102) and leaves the pool, the
queue and the semaphore completely unchanged. -/
theorem enqueue_rejects_malformed (s : ListenerState) (a : EnqArgs)
    (h : name_length_max < a.cmd.length ∨ arg_length_max < a.arg0.length ∨
         arg_length_max < a.arg1.length ∨ arg_length_max < a.arg2.length ∨
         pipe_name_max < a.pipename.length ∨
         ¬ pipeNamespace.isPrefixOf a.pipename = true) :
    enqueue s a = (ATTACH_ERROR_ILLEGALARG, s) := by
  apply enqueue_invalid
  intro hv
  obtain ⟨h1, h2, h3, h4, h5, h6⟩ := hv
  rcases h with h | h | h | h | h | h
  · omega
  · omega
  · omega
  · omega
  · omega
  · exact h h6

/-- Witness for C4: an over-length command (17 characters) is rejected with
code 102 and the initialized state is unchanged. -/
theorem enqueue_rejects_malformed_witness :
    name_length_max < longCmdArgs.cmd.length ∧
    enqueue initState longCmdArgs = (ATTACH_ERROR_ILLEGALARG, initState) :=
  ⟨by decide, enqueue_rejects_malformed initState longCmdArgs (Or.inl (by decide))⟩

/-- C10: inputs whose lengths equal the bounds exactly pass validation
(the checks reject only strictly greater lengths), and every accepted
string is stored in the popped slot complete — each slot buffer is one byte
larger than its bound, so no truncation occurs and the stored C string is
NUL-terminated. -/
theorem enqueue_boundary_acceptance (s : ListenerState) (a : EnqArgs)
    (op : Win32AttachOperationRequest) (rest : List Win32AttachOperationRequest)
    (hcmd : a.cmd.length = name_length_max)
    (ha0 : a.arg0.length = arg_length_max)
    (ha1 : a.arg1.length = arg_length_max)
    (ha2 : a.arg2.length = arg_length_max)
    (hp : a.pipename.length = pipe_name_max)
    (hpre : pipeNamespace.isPrefixOf a.pipename = true)
    (havail : s.avail = op :: rest) :
    enqueue s a =
      (0, { avail := rest,
            queue := s.queue ++ [{ id := op.id, ver := a.ver, name := a.cmd,
                                   arg0 := a.arg0, arg1 := a.arg1, arg2 := a.arg2,
                                   pipe := a.pipename }],
            sem := s.sem + 1 }) := by
  have hv : validArgs a :=
    ⟨le_of_eq hcmd, le_of_eq ha0, le_of_eq ha1, le_of_eq ha2, le_of_eq hp, hpre⟩
  have hss : storedSlot op a =
      { id := op.id, ver := a.ver, name := a.cmd, arg0 := a.arg0, arg1 := a.arg1,
        arg2 := a.arg2, pipe := a.pipename } := by
    simp only [storedSlot, Win32AttachOperationRequest.set, set_value, Nat.add_sub_cancel,
      Win32AttachOperationRequest.mk.injEq, true_and]
    refine ⟨?_, ?_, ?_, ?_, ?_⟩ <;> apply List.take_of_length_le <;> omega
  have hstep : enqueue s a =
      (0, { avail := rest, queue := s.queue ++ [storedSlot op a], sem := s.sem + 1 }) := by
    rw [enqueue_valid s a hv, havail]
  rw [hstep, hss]

set_option maxRecDepth 8192 in
/-- Witness for C10: a command of exactly 16 characters, arguments of
exactly 1024 characters and a pipe name of exactly 256 characters are all
accepted and stored without truncation. -/
theorem enqueue_boundary_acceptance_witness :
    boundaryArgs.cmd.length = name_length_max ∧
    enqueue initState boundaryArgs =
      (0, { avail := [Win32AttachOperationRequest.mkInit 2,
                      Win32AttachOperationRequest.mkInit 1,
                      Win32AttachOperationRequest.mkInit 0],
            queue := [{ id := (Win32AttachOperationRequest.mkInit 3).id,
                        ver := boundaryArgs.ver, name := boundaryArgs.cmd,
                        arg0 := boundaryArgs.arg0, arg1 := boundaryArgs.arg1,
                        arg2 := boundaryArgs.arg2, pipe := boundaryArgs.pipename }],
            sem := 1 }) :=
  ⟨by decide,
   enqueue_boundary_acceptance initState boundaryArgs
     (Win32AttachOperationRequest.mkInit 3)
     [Win32AttachOperationRequest.mkInit 2, Win32AttachOperationRequest.mkInit 1,
      Win32AttachOperationRequest.mkInit 0]
     (by decide) (by decide) (by decide) (by decide) (by decide) (by decide) rfl⟩

/-- C9: `complete(resultCode, outputText)` writes the numeric result code
followed by the textual output to the Channel, flushes it, and closes the
Channel exactly once and destroys the Operation — on every path, also when
the write fails (the failed write is logged and swallowed, no retry, and
the close and destruction still happen). -/
theorem complete_writes_closes_destroys (result : Int) (output : CStr) :
    complete true result output =
      ([ChanEvent.writeCode result, ChanEvent.writeText output, ChanEvent.flush,
        ChanEvent.close], true) ∧
    complete false result output = ([ChanEvent.close], true) ∧
    (complete true result output).1.count ChanEvent.close = 1 ∧
    (complete false result output).1.count ChanEvent.close = 1 := by
  refine ⟨rfl, rfl, ?_, ?_⟩ <;>
    simp [complete, write_reply, List.count_cons, List.count_nil]

/-- C7 counterexample: with the listener never initialized, the readiness
loop performs 11 `Sleep(1000)` calls (not 10) before returning
`ATTACH_ERROR_DISABLED`: the claimed total readiness-wait of 10 × 1s is
exceeded. -/
theorem readiness_wait_counterexample :
    readinessWait (fun _ => false) 0 ≠ (false, 10) ∧
    readinessWait (fun _ => false) 0 = (false, 11) ∧ 10 < 11 := by
  have h : readinessWait (fun _ => false) 0 = (false, 11) :=
    readinessWait_never (fun _ => false) 11 0 rfl (by omega) (fun k hk1 hk2 => rfl)
  refine ⟨?_, h, by omega⟩
  rw [h]
  simp

/-- C7 (amended): if the listener never becomes initialized, `enqueue`'s
readiness loop sleeps in 1-second steps for 11 attempts (checking
`is_initialized` before each sleep, at sleep counts 0 through 10) and then
returns Disabled after a total wait of 11 × 1s; if the listener is
initialized by the k-th check (k ≤ 10), the call proceeds past the
readiness check after k sleeps. -/
theorem readiness_wait_behavior (ready : Nat → Bool) :
    ((∀ k, k ≤ 10 → ready k = false) → readinessWait ready 0 = (false, 11)) ∧
    (∀ k, k ≤ 10 → ready k = true → (∀ j, j < k → ready j = false) →
      readinessWait ready 0 = (true, k)) := by
  constructor
  · intro h
    exact readinessWait_never ready 11 0 rfl (by omega) (fun k hk1 hk2 => h k hk2)
  · intro k hk hr h
    exact readinessWait_found ready 11 0 k rfl (Nat.zero_le k) hk hr (fun j hj1 hj2 => h j hj2)

/-- Witness for C7 (amended): a listener that never initializes makes the
loop return Disabled after 11 sleeps; a listener that initializes at the
third check lets the call proceed after 3 sleeps. -/
theorem readiness_wait_behavior_witness :
    readinessWait (fun _ => false) 0 = (false, 11) ∧
    readinessWait (fun k => k == 3) 0 = (true, 3) :=
  ⟨(readiness_wait_behavior (fun _ => false)).1 (fun k hk => rfl),
   (readiness_wait_behavior (fun k => k == 3)).2 3 (by omega) (by decide)
     (fun j hj => by simpa using Nat.ne_of_lt hj)⟩

/-- C2: in every reachable state the pool and the queue together hold
exactly the `max_enqueued_operations` preallocated slots — the slot ids are
a permutation of {0,1,2,3}, with no duplicates (a slot is never in two
places at once) and none missing (no slot is ever lost; a dequeue step
moves the popped slot back to the pool within the same critical section, so
the in-flight excursion is internal to one step) — and the pending queue
never grows beyond the pool capacity. -/
theorem slot_conservation (s : ListenerState) (h : Reachable s) :
    (slotIds s).Perm (List.range max_enqueued_operations) ∧
    (slotIds s).Nodup ∧
    s.queue.length ≤ max_enqueued_operations := by
  obtain ⟨h1, h2⟩ := inv_reachable h
  refine ⟨h2, h2.symm.nodup (List.nodup_range max_enqueued_operations), ?_⟩
  have hlen := h2.length_eq
  simp only [slotIds, List.length_map, List.length_append, List.length_range] at hlen
  omega

/-- Witness for C2: the conservation property evaluated at a state reached
by one enqueue step from the initialized state. -/
theorem slot_conservation_witness :
    (slotIds (enqueue initState sampleA).2).Perm (List.range max_enqueued_operations) ∧
    (slotIds (enqueue initState sampleA).2).Nodup ∧
    (enqueue initState sampleA).2.queue.length ≤ max_enqueued_operations :=
  slot_conservation (enqueue initState sampleA).2
    (Reachable.step Reachable.init (Step.enq initState sampleA))

/-- C6: in every reachable state the semaphore count equals the pending
queue length and never exceeds the pool capacity; consequently, whenever a
dequeue wakeup consumes a semaphore count (`0 < sem`), the queue head is
non-null, so the unconditional `request->set_next(...)` on the popped
pointer (outside the null check) never dereferences null — `dequeueIter`
never hits its undefined-behavior case. -/
theorem semaphore_mirrors_queue (s : ListenerState) (env : ChannelEnv)
    (h : Reachable s) :
    s.sem = s.queue.length ∧ s.sem ≤ max_enqueued_operations ∧
    (0 < s.sem → s.queue ≠ [] ∧ dequeueIter env s ≠ none) := by
  obtain ⟨h1, h2⟩ := inv_reachable h
  have hlen := h2.length_eq
  simp only [slotIds, List.length_map, List.length_append, List.length_range] at hlen
  refine ⟨h1, by omega, ?_⟩
  intro hpos
  have hq : s.queue ≠ [] := by
    intro hnil
    rw [hnil] at h1
    simp at h1
    omega
  refine ⟨hq, ?_⟩
  cases hqe : s.queue with
  | nil => exact absurd hqe hq
  | cons r rest => simp [dequeueIter, hqe]

/-- Witness for C6: the semaphore-mirror property evaluated at a state
reached by one enqueue step from the initialized state (its semaphore count
is 1, so the non-null-head consequence is exercised). -/
theorem semaphore_mirrors_queue_witness :
    (enqueue initState sampleA).2.sem = (enqueue initState sampleA).2.queue.length ∧
    (enqueue initState sampleA).2.sem ≤ max_enqueued_operations ∧
    (0 < (enqueue initState sampleA).2.sem →
      (enqueue initState sampleA).2.queue ≠ [] ∧
      dequeueIter trivialEnv (enqueue initState sampleA).2 ≠ none) :=
  semaphore_mirrors_queue (enqueue initState sampleA).2 trivialEnv
    (Reachable.step Reachable.init (Step.enq initState sampleA))

/-- C1: for any sequence of valid enqueue calls of length at most the pool
capacity, starting from the initialized state, every call returns success
(0); the queue then holds exactly the slots appended by the successful
enqueues, in enqueue order; and consecutive dequeue iterations pop exactly
those slots from the queue head in the same order (the k-th successful
enqueue's slot is the k-th slot popped). -/
theorem enqueue_dequeue_fifo (env : ChannelEnv) (reqs : List EnqArgs)
    (hv : ∀ a ∈ reqs, validArgs a) (hlen : reqs.length ≤ max_enqueued_operations) :
    (enqueueAll initState reqs).1 = List.replicate reqs.length 0 ∧
    (enqueueAll initState reqs).2.queue =
      List.zipWith storedSlot (initState.avail.take reqs.length) reqs ∧
    (iterPops env (enqueueAll initState reqs).2 reqs.length).1 =
      (enqueueAll initState reqs).2.queue := by
  have h4 : reqs.length ≤ initState.avail.length := hlen
  have he := enqueueAll_valid reqs initState hv h4
  rw [he]
  refine ⟨rfl, by simp [initState], ?_⟩
  rw [iterPops_pops]
  simp only [initState, List.nil_append]
  apply List.take_of_length_le
  simp only [List.length_zipWith, List.length_take, List.length_cons, List.length_nil]
  omega

/-- Witness for C1: two valid enqueues (a V1 and a V2 request) both return
0 and are dequeued in FIFO order. -/
theorem enqueue_dequeue_fifo_witness :
    (∀ a ∈ [sampleA, sampleB], validArgs a) ∧
    ((enqueueAll initState [sampleA, sampleB]).1 =
       List.replicate (List.length [sampleA, sampleB]) 0 ∧
     (enqueueAll initState [sampleA, sampleB]).2.queue =
       List.zipWith storedSlot (initState.avail.take (List.length [sampleA, sampleB]))
         [sampleA, sampleB] ∧
     (iterPops trivialEnv (enqueueAll initState [sampleA, sampleB]).2
        (List.length [sampleA, sampleB])).1 =
       (enqueueAll initState [sampleA, sampleB]).2.queue) :=
  ⟨by decide, enqueue_dequeue_fifo trivialEnv [sampleA, sampleB] (by decide) (by decide)⟩

open Win32AttachOperationRequest in
/-- C3: from the initialized state (all 4 slots free), five valid enqueues
with no intervening dequeue return success (0) four times and
`ATTACH_ERROR_RESOURCE` (101) on the fifth — the exhausted call returns
synchronously instead of blocking for a free slot; and after one dequeue
iteration (whether it produces an operation or discards the request, in
any channel environment) the pool holds one free slot again, so any
subsequent valid enqueue succeeds. -/
theorem enqueue_pool_exhaustion (env : ChannelEnv) (a0 a1 a2 a3 a4 : EnqArgs)
    (h0 : validArgs a0) (h1 : validArgs a1) (h2 : validArgs a2)
    (h3 : validArgs a3) (h4 : validArgs a4) :
    (enqueueAll initState [a0, a1, a2, a3, a4]).1 =
      [0, 0, 0, 0, ATTACH_ERROR_RESOURCE] ∧
    ∃ res popped s',
      dequeueIter env (enqueueAll initState [a0, a1, a2, a3, a4]).2 =
        some (res, popped, s') ∧
      s'.avail.length = 1 ∧
      ∀ b : EnqArgs, validArgs b → (enqueue s' b).1 = 0 := by
  have e0 : enqueue initState a0 =
      (0, { avail := [mkInit 2, mkInit 1, mkInit 0],
            queue := [storedSlot (mkInit 3) a0],
            sem := 1 }) := by
    rw [enqueue_valid initState a0 h0]; rfl
  have e1 : enqueue
      { avail := [mkInit 2, mkInit 1, mkInit 0],
        queue := [storedSlot (mkInit 3) a0],
        sem := 1 } a1 =
      (0, { avail := [mkInit 1, mkInit 0],
            queue := [storedSlot (mkInit 3) a0, storedSlot (mkInit 2) a1],
            sem := 2 }) := by
    rw [enqueue_valid _ a1 h1]; rfl
  have e2 : enqueue
      { avail := [mkInit 1, mkInit 0],
        queue := [storedSlot (mkInit 3) a0, storedSlot (mkInit 2) a1],
        sem := 2 } a2 =
      (0, { avail := [mkInit 0],
            queue := [storedSlot (mkInit 3) a0, storedSlot (mkInit 2) a1,
                      storedSlot (mkInit 1) a2],
            sem := 3 }) := by
    rw [enqueue_valid _ a2 h2]; rfl
  have e3 : enqueue
      { avail := [mkInit 0],
        queue := [storedSlot (mkInit 3) a0, storedSlot (mkInit 2) a1,
                  storedSlot (mkInit 1) a2],
        sem := 3 } a3 =
      (0, { avail := [],
            queue := [storedSlot (mkInit 3) a0, storedSlot (mkInit 2) a1,
                      storedSlot (mkInit 1) a2, storedSlot (mkInit 0) a3],
            sem := 4 }) := by
    rw [enqueue_valid _ a3 h3]; rfl
  have e4 : enqueue
      { avail := ([] : List Win32AttachOperationRequest),
        queue := [storedSlot (mkInit 3) a0, storedSlot (mkInit 2) a1,
                  storedSlot (mkInit 1) a2, storedSlot (mkInit 0) a3],
        sem := 4 } a4 =
      (ATTACH_ERROR_RESOURCE,
       { avail := ([] : List Win32AttachOperationRequest),
         queue := [storedSlot (mkInit 3) a0, storedSlot (mkInit 2) a1,
                   storedSlot (mkInit 1) a2, storedSlot (mkInit 0) a3],
         sem := 4 }) := by
    rw [enqueue_valid _ a4 h4]
  have hall : enqueueAll initState [a0, a1, a2, a3, a4] =
      ([0, 0, 0, 0, ATTACH_ERROR_RESOURCE],
       { avail := ([] : List Win32AttachOperationRequest),
         queue := [storedSlot (mkInit 3) a0, storedSlot (mkInit 2) a1,
                   storedSlot (mkInit 1) a2, storedSlot (mkInit 0) a3],
         sem := 4 }) := by
    simp only [enqueueAll, e0, e1, e2, e3, e4]
  refine ⟨by rw [hall], dispatch env (storedSlot (mkInit 3) a0),
    storedSlot (mkInit 3) a0,
    { avail := [storedSlot (mkInit 3) a0],
      queue := [storedSlot (mkInit 2) a1, storedSlot (mkInit 1) a2,
                storedSlot (mkInit 0) a3],
      sem := 3 }, ?_, rfl, ?_⟩
  · rw [hall]; rfl
  · intro b hb
    rw [enqueue_valid _ b hb]

/-- Witness for C3: five valid enqueues return `[0, 0, 0, 0, 101]`; after
one dequeue iteration in an environment where opening the pipe fails (the
request is discarded), a slot is free again and a further valid enqueue
succeeds. -/
theorem enqueue_pool_exhaustion_witness :
    validArgs sampleA ∧
    ((enqueueAll initState [sampleA, sampleA, sampleA, sampleA, sampleA]).1 =
       [0, 0, 0, 0, ATTACH_ERROR_RESOURCE] ∧
     ∃ res popped s',
       dequeueIter closedEnv
           (enqueueAll initState [sampleA, sampleA, sampleA, sampleA, sampleA]).2 =
         some (res, popped, s') ∧
       s'.avail.length = 1 ∧
       ∀ b : EnqArgs, validArgs b → (enqueue s' b).1 = 0) :=
  ⟨by decide,
   enqueue_pool_exhaustion closedEnv sampleA sampleA sampleA sampleA sampleA
     (by decide) (by decide) (by decide) (by decide) (by decide)⟩

/-- C5: `dequeue` never returns a failure to its caller. In an iteration
whose popped request fails to dispatch (channel open failure, V2 read
failure, or unsupported version), the slot is still returned to the free
pool and the loop transparently continues with the next pending request;
when dispatch succeeds the loop returns the operation (with the slot
likewise already returned to the pool); and the only way the loop comes to
rest without an operation is back in the blocked semaphore wait
(`sem = 0`) — there is no failure return value. -/
theorem dequeue_never_returns_failure (env : ChannelEnv) (s : ListenerState)
    (r : Win32AttachOperationRequest) (rest : List Win32AttachOperationRequest)
    (hsem : s.sem ≠ 0) (hq : s.queue = r :: rest) :
    (dispatch env r = none →
       dequeueLoop env s =
         dequeueLoop env { avail := r :: s.avail, queue := rest, sem := s.sem - 1 }) ∧
    (∀ op, dispatch env r = some op →
       dequeueLoop env s =
         some (some op, { avail := r :: s.avail, queue := rest, sem := s.sem - 1 })) ∧
    (∀ res s', dequeueLoop env s = some (res, s') → res = none → s'.sem = 0) := by
  refine ⟨?_, ?_, ?_⟩
  · intro hd
    rw [dequeueLoop, if_neg hsem, hq]
    simp only [hd]
  · intro op hd
    rw [dequeueLoop, if_neg hsem, hq]
    simp only [hd]
  · intro res s' heq
    exact dequeueLoop_blocked_of_none env s.sem s (le_refl _) res s' heq

open Win32AttachOperationRequest in
/-- Witness for C5: a state with one pending request whose pipe cannot be
opened — the loop returns the slot to the pool and goes back to blocking. -/
theorem dequeue_never_returns_failure_witness :
    (dispatch closedEnv (mkInit 0) = none →
       dequeueLoop closedEnv { avail := [], queue := [mkInit 0], sem := 1 } =
         dequeueLoop closedEnv { avail := [mkInit 0], queue := [], sem := 0 }) ∧
    (∀ op, dispatch closedEnv (mkInit 0) = some op →
       dequeueLoop closedEnv { avail := [], queue := [mkInit 0], sem := 1 } =
         some (some op, { avail := [mkInit 0], queue := [], sem := 0 })) ∧
    (∀ res s',
       dequeueLoop closedEnv { avail := [], queue := [mkInit 0], sem := 1 } =
         some (res, s') → res = none → s'.sem = 0) :=
  dequeue_never_returns_failure closedEnv
    { avail := [], queue := [mkInit 0], sem := 1 } (mkInit 0) [] (by decide) rfl

open Win32AttachOperationRequest in
/-- C8: V1 round trip — enqueueing command `"C"` with arguments
`["a", "", ""]` and then dequeueing yields an operation whose command name
is `"C"` and whose three arguments are byte-for-byte the strings stored in
the slot by the enqueue. -/
theorem v1_round_trip (env : ChannelEnv)
    (hopen : env.openOk validPipe true = true) :
    (enqueue initState v1Args).1 = 0 ∧
    ∃ slot s',
      dequeueIter env (enqueue initState v1Args).2 =
        some (some { name := ( "C" ).data, args := [( "a" ).data, [], []],
                     pipe := validPipe }, slot, s') ∧
      slot.name = ( "C" ).data ∧ slot.arg0 = ( "a" ).data ∧
      slot.arg1 = [] ∧ slot.arg2 = [] := by
  have hv : validArgs v1Args := by decide
  have he : enqueue initState v1Args =
      (0, { avail := [mkInit 2, mkInit 1, mkInit 0],
            queue := [storedSlot (mkInit 3) v1Args],
            sem := 1 }) := by
    rw [enqueue_valid initState v1Args hv]; rfl
  have hd : dispatch env (storedSlot (mkInit 3) v1Args) =
      some { name := ( "C" ).data, args := [( "a" ).data, [], []],
             pipe := validPipe } := by
    have hver : (storedSlot (mkInit 3) v1Args).ver = ATTACH_API_V1 := by decide
    have hpipe : (storedSlot (mkInit 3) v1Args).pipe = validPipe := by decide
    have hname : (storedSlot (mkInit 3) v1Args).name = ( "C" ).data := by decide
    have harg0 : (storedSlot (mkInit 3) v1Args).arg0 = ( "a" ).data := by decide
    have harg1 : (storedSlot (mkInit 3) v1Args).arg1 = [] := by decide
    have harg2 : (storedSlot (mkInit 3) v1Args).arg2 = [] := by decide
    simp [dispatch, hver, hpipe, hname, harg0, harg1, harg2, hopen]
  refine ⟨by rw [he], storedSlot (mkInit 3) v1Args,
    { avail := [storedSlot (mkInit 3) v1Args, mkInit 2, mkInit 1, mkInit 0],
      queue := [], sem := 0 }, ?_, by decide, by decide, by decide, by decide⟩
  rw [he]
  simp only [dequeueIter]
  rw [hd]

/-- Witness for C8: the round trip in the environment where every pipe
open succeeds. -/
theorem v1_round_trip_witness :
    trivialEnv.openOk validPipe true = true ∧
    ((enqueue initState v1Args).1 = 0 ∧
     ∃ slot s',
       dequeueIter trivialEnv (enqueue initState v1Args).2 =
         some (some { name := ( "C" ).data, args := [( "a" ).data, [], []],
                      pipe := validPipe }, slot, s') ∧
       slot.name = ( "C" ).data ∧ slot.arg0 = ( "a" ).data ∧
       slot.arg1 = [] ∧ slot.arg2 = []) :=
  ⟨rfl, v1_round_trip trivialEnv rfl⟩

end AttachWin
